import Mathlib

/-!
Verification of the Lighthouse v2 report renderer and report features.

The repository has two parts:
* the report renderer (`report-renderer.js`): only its unit tests are in the
  tree, so the renderer itself is modelled from the specification (each such
  definition is marked `Modelled from the spec:`);
* the report features layer (`report-features.js`): present in the tree and
  embedded directly, method by method.
-/

namespace Lighthouse

/-! ## Data model: the results object (spec section 3) -/

/-- Modelled from the spec: one environment flag of the runtime configuration,
"each with name/description/enabled state". -/
structure EnvFlag where
  name : String
  description : String
  enabled : Bool
deriving Repr, DecidableEq

/-- Modelled from the spec: the computed result of an audit, "a computed
result (score, scoring mode, detail payload)". -/
structure AuditResult where
  score : ℚ
  scoringMode : String
  description : String
  helpText : String
deriving Repr, DecidableEq

/-- Modelled from the spec: a single audit, "each with a description, a
computed result (score, scoring mode, detail payload), and markdown-bearing
help text". -/
structure Audit where
  id : String
  result : AuditResult
deriving Repr, DecidableEq

/-- Modelled from the spec: a category, "holding a name, a score (0-100), and
a list of audits". -/
structure Category where
  name : String
  score : ℚ
  audits : List Audit
deriving Repr, DecidableEq

/-- Modelled from the spec: the runtime configuration, "list of environment
flags". -/
structure RuntimeConfig where
  environment : List EnvFlag
deriving Repr, DecidableEq

/-- Modelled from the spec: the results object, "a generated timestamp, a page
URL, a runtime configuration ... and a list of categories".  The version string
appears in the rendered footer ("Generated by Lighthouse 1.6.0"). -/
structure Results where
  generatedTime : String
  url : String
  lighthouseVersion : String
  runtimeConfig : RuntimeConfig
  reportCategories : List Category
deriving Repr, DecidableEq

/-! ## Format helpers (`report-renderer.js`, absent from the tree) -/

/-- Modelled from the spec: the lower score threshold of the "pass" bucket of
`calculateRating` in `report-renderer.js` (the spec fixes only that thresholds
exist; the value is pinned by the repository's unit tests, which require 55 to
rate "average" and 75 to rate "pass"). -/
def RATINGS_PASS_MIN : ℚ := 75

/-- Modelled from the spec: the lower score threshold of the "average" bucket
of `calculateRating` in `report-renderer.js` (pinned by the unit tests, which
require 10 to rate "fail" and 45 to rate "average"). -/
def RATINGS_AVG_MIN : ℚ := 45

/-- Modelled from the spec: `ReportRenderer.calculateRating` of
`report-renderer.js` (absent from the tree), the "score-to-rating bucketing
(fail / average / pass thresholds)": a score at or above the pass threshold
rates "pass", otherwise at or above the average threshold rates "average",
otherwise "fail". -/
def calculateRating (score : ℚ) : String :=
  if RATINGS_PASS_MIN ≤ score then "pass"
  else if RATINGS_AVG_MIN ≤ score then "average"
  else "fail"

/-- Groups a reversed digit list (least significant digit first) into blocks
of three, separating blocks with a comma. -/
def commasRev : List Char → ℕ → List Char
  | [], _ => []
  | [c], _ => [c]
  | c :: rest, k =>
      if k = 3 then c :: ',' :: commasRev rest 1
      else c :: commasRev rest (k + 1)

/-- Inserts thousands separators into a digit string. -/
def insertCommas (s : String) : String :=
  String.mk ((commasRev s.toList.reverse 1).reverse)

/-- The integer number of tenths nearest to `|q| * 10`. -/
def roundTenths (q : ℚ) : ℕ :=
  (round (|q| * 10) : ℤ).toNat

/-- Modelled from the spec: `ReportRenderer.formatNumber` of
`report-renderer.js` (absent from the tree), "number formatting (locale-aware
grouping and rounding)": the number is rounded to at most one fractional
digit, the integer part is grouped into thousands, and a zero fractional part
is dropped. -/
def formatNumber (q : ℚ) : String :=
  (if q < 0 then "-" else "")
    ++ insertCommas (Nat.repr (roundTenths q / 10))
    ++ (if roundTenths q % 10 = 0 then "" else "." ++ Nat.repr (roundTenths q % 10))

/-! ## The rendered DOM -/

/-- A rendered DOM element: an identity (standing for DOM node identity), the
class list, the text content and the child elements. -/
structure Element where
  eid : ℕ
  classes : List String
  text : String
  children : List Element

/-- The host container for the report: its current child elements, plus a
fresh-identity counter standing for the document's ability to mint new,
distinct DOM nodes. -/
structure Doc where
  children : List Element
  nextId : ℕ

/-- A document whose children all have identities below the fresh counter. -/
def Doc.wf (d : Doc) : Prop := ∀ el ∈ d.children, el.eid < d.nextId

/-- An element is a rendered report when it carries the report class or the
exception-view class. -/
def isReportElement (el : Element) : Bool :=
  el.classes.contains "lh-report" || el.classes.contains "lh-exception"

/-! ## Sub-renderers (`report-renderer.js`, absent from the tree) -/

/-- Modelled from the spec: the header sub-renderer of `report-renderer.js`
(absent from the tree); shows the generated timestamp, the page URL and one
item per runtime-environment flag (name, description, Enabled/Disabled). -/
def renderReportHeader (r : Results) : Element :=
  { eid := 0, classes := ["lh-header"],
    text := r.generatedTime ++ " " ++ r.url,
    children := r.runtimeConfig.environment.map (fun env =>
      { eid := 0, classes := ["lh-env__item"],
        text := env.name ++ " " ++ env.description ++ " "
          ++ (if env.enabled then "Enabled" else "Disabled"),
        children := [] }) }

/-- Modelled from the spec: the audit sub-renderer of `report-renderer.js`
(absent from the tree); shows the audit description, a formatted score value
carrying the rating and scoring-mode classes, and the help text. -/
def renderAudit (a : Audit) : Element :=
  { eid := 0, classes := ["lh-audit"], text := "",
    children :=
      [ { eid := 0,
          classes := ["lh-score__value",
            "lh-score__value--" ++ calculateRating a.result.score,
            "lh-score__value--" ++ a.result.scoringMode],
          text := formatNumber a.result.score, children := [] },
        { eid := 0, classes := ["lh-score__title"],
          text := a.result.description, children := [] },
        { eid := 0, classes := ["lh-score__description"],
          text := a.result.helpText, children := [] } ] }

/-- Modelled from the spec: the category sub-renderer of `report-renderer.js`
(absent from the tree); shows the category name with its rounded aggregate
score and renders each of its audits. -/
def renderCategory (c : Category) : Element :=
  { eid := 0, classes := ["lh-category"], text := "",
    children :=
      { eid := 0, classes := ["lh-score"],
        text := c.name ++ " " ++ toString (round c.score),
        children := [] } :: c.audits.map renderAudit }

/-- Modelled from the spec: the container of all rendered categories (queried
as `.lh-categories` by the features layer). -/
def renderCategories (r : Results) : Element :=
  { eid := 0, classes := ["lh-categories"], text := "",
    children := r.reportCategories.map renderCategory }

/-- Modelled from the spec: the footer sub-renderer of `report-renderer.js`
(absent from the tree); shows the Lighthouse version and the timestamp. -/
def renderReportFooter (r : Results) : Element :=
  { eid := 0, classes := ["lh-footer"],
    text := "Generated by Lighthouse " ++ r.lighthouseVersion
      ++ " on " ++ r.generatedTime,
    children := [] }

/-- Modelled from the spec: the fallback exception view produced when reading
the results object throws; it carries the `lh-exception` class. -/
def renderException (msg : String) (i : ℕ) : Element :=
  { eid := i, classes := ["lh-exception"], text := msg, children := [] }

/-- Modelled from the spec: a successfully rendered report, carrying the
`lh-report` class, with header, categories and footer as children. -/
def renderReportInner (r : Results) (i : ℕ) : Element :=
  { eid := i, classes := ["lh-report"], text := "",
    children := [renderReportHeader r, renderCategories r, renderReportFooter r] }

/-- Modelled from the spec: `ReportRenderer.renderReport` of
`report-renderer.js` (absent from the tree).  Reading the results object
either yields the whole object or throws, so the input arrives as an
`Except`; a throw is turned into the exception view instead of being
propagated.  The produced element is inserted into the container, "replacing
any previously rendered report in that container": every child that is a
rendered report is removed and the new output is appended. -/
def renderReport (results : Except String Results) (container : Doc) :
    Element × Doc :=
  let output := match results with
    | Except.ok r => renderReportInner r container.nextId
    | Except.error msg => renderException msg container.nextId
  (output,
   { children := (container.children.filter (fun el => !isReportElement el)) ++ [output],
     nextId := container.nextId + 1 })

/-- Modelled from the spec: the same renderReport on a successfully read
results object, with the results object threaded through the header,
categories and footer sub-render steps as explicit state, so that
preservation of the object across rendering is a provable property of the
composition rather than a convention. -/
def renderReportThreaded (r : Results) (container : Doc) :
    Results × Element × Doc :=
  let s1 : Results × Element := (r, renderReportHeader r)
  let s2 : Results × Element := (s1.1, renderCategories s1.1)
  let s3 : Results × Element := (s2.1, renderReportFooter s2.1)
  let output : Element :=
    { eid := container.nextId, classes := ["lh-report"], text := "",
      children := [s1.2, s2.2, s3.2] }
  (s3.1, output,
   { children := (container.children.filter (fun el => !isReportElement el)) ++ [output],
     nextId := container.nextId + 1 })

/-! ## Report features (`report-features.js`, embedded from the source)

The feature layer is event-driven code over the browser document.  It is
embedded as a state machine: `FeaturesState` holds the fields of the
`ReportFeatures` instance together with which listeners are currently bound,
`SysState` adds the mutable parts of the document the handlers touch (the
`<details>` disclosures and the page HTML), `Browser` holds the ambient
browser capabilities, and each handler becomes a function from state to state
paired with the list of observable browser effects it performs. -/

/-- An observable browser effect performed by a feature handler. -/
inductive Effect where
  | gaSend
  | clipboardWrite (data : String)
  | logMsg (m : String)
  | logWarn (m : String)
  | logError (m : String)
  | printDialog
  | openViewer (url : String)
  | postMessageToViewer (json : String) (origin : String)
  | saveFile (mime : String) (content : String)
deriving Repr, DecidableEq

/-- Ambient browser capabilities: whether `queryCommandSupported('copy')`
holds, what `execCommand('copy')` does (returns a Bool or throws), and
whether `window.ga` is present. -/
structure Browser where
  copySupported : Bool
  execCommandCopy : Except String Bool
  gaPresent : Bool
deriving Repr

/-- The mutable fields of a `ReportFeatures` instance, together with which of
its listeners are currently bound.  `json` is the stored report
(`this.json`, null before `attach`), `copyAttempt` is `this._copyAttempt`,
`dropdownActive` is whether the export button carries the `active` class,
`keyListenerAttached` is whether `onKeyDown` is bound to the document,
`capturedDetails` is the identity list captured by
`_setUpCollaspeDetailsAfterPrinting`, and `viewerMsgPending` is whether a
`sendJSONReport` message handler is waiting for the viewer handshake. -/
structure FeaturesState where
  json : Option Results
  copyAttempt : Bool
  attached : Bool
  exportButtonPresent : Bool
  dropdownActive : Bool
  keyListenerAttached : Bool
  capturedDetails : List ℕ
  viewerMsgPending : Bool
deriving Repr, DecidableEq

/-- A `<details>` disclosure element of the document: its identity, whether
it sits inside the `.lh-categories` container, and its open state. -/
structure DetailsEl where
  did : ℕ
  inCategories : Bool
  isOpen : Bool
deriving Repr, DecidableEq

/-- The parts of the document the feature handlers read or mutate: the
`<details>` elements, the page HTML (`documentElement.outerHTML`), and
whether the rendered report contains the `.lh-export__button`. -/
structure SysState where
  detailsEls : List DetailsEl
  docHTML : String
  exportButtonInDoc : Bool
  features : FeaturesState
deriving Repr, DecidableEq

/-- The state of a fresh `ReportFeatures` instance right after its
constructor ran: no report stored, no copy attempt, nothing bound. -/
def initFeatures : FeaturesState :=
  { json := none, copyAttempt := false, attached := false,
    exportButtonPresent := false, dropdownActive := false,
    keyListenerAttached := false, capturedDetails := [],
    viewerMsgPending := false }

/-- The origin of the online viewer (`VIEWER_ORIGIN` in `sendJSONReport`). -/
def VIEWER_ORIGIN : String := "https://googlechrome.github.io"

/-- The URL of the online viewer (`VIEWER_URL` in `sendJSONReport`). -/
def VIEWER_URL : String := VIEWER_ORIGIN ++ "/lighthouse/viewer/"

/-- Shallow model of `JSON.stringify(this.json, null, 2)`: a rendering of the
stored report's fields (null when no report is attached). -/
def jsonStringify : Option Results → String
  | none => "null"
  | some r =>
      "generatedTime: " ++ r.generatedTime ++ ", url: " ++ r.url
        ++ ", lighthouseVersion: " ++ r.lighthouseVersion

/-- Embeds `ReportFeatures.attach` with the listener wiring of
`_addEventListeners`: the report is stored in `this.json`, the current
`<details>` identities are captured for collapse-after-printing, the export
and copy listeners are bound when the export button exists, and the
print-shortcut keydown listener is bound. -/
def attach (report : Results) (s : SysState) : SysState :=
  { s with features := { s.features with
      json := some report,
      attached := true,
      capturedDetails := s.detailsEls.map DetailsEl.did,
      exportButtonPresent := s.exportButtonInDoc } }

/-- Embeds `ReportFeatures.onCopy`: when a copy attempt is pending the
handler overrides the clipboard data with the report JSON and logs; in every
case it resets `_copyAttempt` to false. -/
def onCopy (st : FeaturesState) : FeaturesState × List Effect :=
  (({ st with copyAttempt := false }),
   if st.copyAttempt then
     [Effect.clipboardWrite (jsonStringify st.json),
      Effect.logMsg "Report JSON copied to clipboard"]
   else [])

/-- Embeds `ReportFeatures.onCopyButtonClick`.  When the copy command is
supported the flag is set and `execCommand('copy')` runs; a successful
`execCommand` synchronously dispatches the document copy event to the bound
`onCopy` listener (that dispatch is the browser's, hence the
`copyListenerAttached` argument); a false return resets the flag and warns; a
throw is caught, resets the flag and logs the error message. -/
def onCopyButtonClick (env : Browser) (copyListenerAttached : Bool)
    (st : FeaturesState) : FeaturesState × List Effect :=
  let gaEffs := if env.gaPresent then [Effect.gaSend] else []
  if env.copySupported then
    let st1 := { st with copyAttempt := true }
    match env.execCommandCopy with
    | Except.ok true =>
        if copyListenerAttached then
          let q := onCopy st1
          (q.1, gaEffs ++ q.2)
        else (st1, gaEffs)
    | Except.ok false =>
        ({ st1 with copyAttempt := false },
         gaEffs ++ [Effect.logWarn "Your browser does not support copy to clipboard."])
    | Except.error msg =>
        ({ st1 with copyAttempt := false }, gaEffs ++ [Effect.logMsg msg])
  else (st, gaEffs)

/-- Embeds `ReportFeatures.closeExportDropdown`: removes the `active` class
from the export button. -/
def closeExportDropdown (st : FeaturesState) : FeaturesState :=
  { st with dropdownActive := false }

/-- Embeds `ReportFeatures.onExportButtonClick`: toggles the `active` class
and binds the ESC keydown listener. -/
def onExportButtonClick (st : FeaturesState) : FeaturesState :=
  { st with dropdownActive := !st.dropdownActive, keyListenerAttached := true }

/-- Embeds `ReportFeatures.onKeyDown`: ESC (key code 27) closes the export
dropdown. -/
def onKeyDown (keyCode : ℕ) (st : FeaturesState) : FeaturesState :=
  if keyCode = 27 then closeExportDropdown st else st

/-- Embeds `ReportFeatures.expandDetailsWhenPrinting`: every `<details>`
inside the `.lh-categories` container is set open. -/
def expandDetailsWhenPrinting (els : List DetailsEl) : List DetailsEl :=
  els.map (fun d => if d.inCategories then { d with isOpen := true } else d)

/-- Embeds the listener installed by
`ReportFeatures._setUpCollaspeDetailsAfterPrinting` (the `afterprint` branch
and the `matchMedia('print')` branch perform the same update): every captured
`<details>` is set closed when the print dialog goes away. -/
def collapseDetailsAfterPrinting (captured : List ℕ) (els : List DetailsEl) :
    List DetailsEl :=
  els.map (fun d => if captured.contains d.did then { d with isOpen := false } else d)

/-- Embeds `ReportFeatures.printShortCutDetect`: Ctrl+P or Cmd+P (key code
80) expands the category details. -/
def printShortCutDetect (ctrlKey metaKey : Bool) (keyCode : ℕ)
    (els : List DetailsEl) : List DetailsEl :=
  if (ctrlKey || metaKey) && keyCode = 80 then expandDetailsWhenPrinting els
  else els

/-- Embeds `ReportFeatures.onExport`.  An event target without a data-action
value returns early with no effect; otherwise the action is dispatched
(copy / open-viewer / print / save-json / save-html; an unknown action falls
through the switch doing nothing) and afterwards the dropdown is closed and
the ESC keydown listener removed. -/
def onExport (env : Browser) (s : SysState) (action : String) :
    SysState × List Effect :=
  if action = "" then (s, [])
  else
    let p :=
      if action = "copy" then
        let q := onCopyButtonClick env
          (s.features.attached && s.features.exportButtonPresent) s.features
        (({ s with features := q.1 }), q.2)
      else if action = "open-viewer" then
        (({ s with features := { s.features with viewerMsgPending := true } }),
         [Effect.openViewer VIEWER_URL])
      else if action = "print" then
        (({ s with detailsEls := expandDetailsWhenPrinting s.detailsEls }),
         [Effect.printDialog])
      else if action = "save-json" then
        (s, [Effect.saveFile "application/json" (jsonStringify s.features.json)])
      else if action = "save-html" then
        (s, [Effect.saveFile "text/html" s.docHTML])
      else (s, [])
    (({ p.1 with features :=
        { closeExportDropdown p.1.features with keyListenerAttached := false } }),
     p.2)

/-- The document events the feature layer reacts to. -/
inductive Ev where
  | attachEv (report : Results)
  | exportButtonClick
  | exportAction (action : String)
  | keyDown (ctrlKey metaKey : Bool) (keyCode : ℕ)
  | copyEvent
  | afterPrint
  | viewerMessage (origin : String) (opened : Bool)
deriving Repr, DecidableEq

/-- One event of the document dispatched to whatever listeners the feature
layer currently has bound.  Export-dropdown and copy events reach handlers
only when `attach` ran on a document containing the export button; keydown
and afterprint listeners exist once attached; a viewer message is handled
only by a pending `sendJSONReport` handshake from the expected origin. -/
def step (env : Browser) (s : SysState) (e : Ev) : SysState × List Effect :=
  match e with
  | Ev.attachEv r => (attach r s, [])
  | Ev.exportButtonClick =>
      if s.features.attached && s.features.exportButtonPresent then
        (({ s with features := onExportButtonClick s.features }), [])
      else (s, [])
  | Ev.exportAction a =>
      if s.features.attached && s.features.exportButtonPresent then
        onExport env s a
      else (s, [])
  | Ev.keyDown ctrlKey metaKey keyCode =>
      if s.features.attached then
        let s1 :=
          { s with detailsEls := printShortCutDetect ctrlKey metaKey keyCode s.detailsEls }
        if s1.features.keyListenerAttached then
          (({ s1 with features := onKeyDown keyCode s1.features }), [])
        else (s1, [])
      else (s, [])
  | Ev.copyEvent =>
      if s.features.attached && s.features.exportButtonPresent then
        let q := onCopy s.features
        (({ s with features := q.1 }), q.2)
      else (s, [])
  | Ev.afterPrint =>
      if s.features.attached then
        (({ s with detailsEls :=
            collapseDetailsAfterPrinting s.features.capturedDetails s.detailsEls }), [])
      else (s, [])
  | Ev.viewerMessage origin opened =>
      if s.features.viewerMsgPending && (origin == VIEWER_ORIGIN) && opened then
        (({ s with features := { s.features with viewerMsgPending := false } }),
         [Effect.postMessageToViewer (jsonStringify s.features.json) VIEWER_ORIGIN])
      else (s, [])

/-- States of the event system reachable from a given start state. -/
inductive Reachable (env : Browser) (s0 : SysState) : SysState → Prop where
  | refl : Reachable env s0 s0
  | tail (s : SysState) (e : Ev) :
      Reachable env s0 s → Reachable env s0 (step env s e).1

/-! ## Renderer lemmas -/

theorem renderReport_fst_eid (rs : Except String Results) (d : Doc) :
    (renderReport rs d).1.eid = d.nextId := by
  cases rs <;> rfl

theorem renderReport_fst_isReport (rs : Except String Results) (d : Doc) :
    isReportElement (renderReport rs d).1 = true := by
  cases rs <;> rfl

theorem renderReport_snd_children (rs : Except String Results) (d : Doc) :
    (renderReport rs d).2.children
      = (d.children.filter (fun el => !isReportElement el))
        ++ [(renderReport rs d).1] := by
  cases rs <;> rfl

theorem renderReport_snd_nextId (rs : Except String Results) (d : Doc) :
    (renderReport rs d).2.nextId = d.nextId + 1 := by
  cases rs <;> rfl

theorem calculateRating_iff (s : ℚ) :
    (calculateRating s = "pass" ↔ RATINGS_PASS_MIN ≤ s)
    ∧ (calculateRating s = "average" ↔ RATINGS_AVG_MIN ≤ s ∧ s < RATINGS_PASS_MIN)
    ∧ (calculateRating s = "fail" ↔ s < RATINGS_AVG_MIN) := by
  unfold calculateRating
  split_ifs with h1 h2 <;>
    refine ⟨?_, ?_, ?_⟩ <;>
    simp only [String.reduceEq] <;>
    constructor <;>
    intro hc <;>
    first
      | rfl
      | exact absurd rfl (by decide)
      | (exfalso; revert hc; decide)
      | exact h1
      | exact ⟨h2, lt_of_not_le h1⟩
      | exact lt_of_not_le h2
      | exact absurd hc.1 h2
      | exact absurd h1 (not_le.mpr hc.2)
      | exact absurd hc (not_lt.mpr h1)
      | exact absurd hc (not_lt.mpr h2)
      | trivial
      | exact absurd (le_trans (by norm_num [RATINGS_AVG_MIN, RATINGS_PASS_MIN]) h1)
          (not_le.mpr hc)

/-! ## Claims about the renderer -/

/-- C1: for every container, a second renderReport call on the same container
replaces the previously rendered report: after the second call the container
no longer contains the DOM tree returned by the first call (no child carries
its identity), contains the tree returned by the second call, and holds
exactly one rendered report. -/
theorem renderReport_replaces (r1 r2 : Except String Results) (d : Doc)
    (hwf : Doc.wf d) :
    (∀ el ∈ (renderReport r2 (renderReport r1 d).2).2.children,
        el.eid ≠ (renderReport r1 d).1.eid)
    ∧ (renderReport r2 (renderReport r1 d).2).1
        ∈ (renderReport r2 (renderReport r1 d).2).2.children
    ∧ ((renderReport r2 (renderReport r1 d).2).2.children.countP
        isReportElement = 1) := by
  have h1 := renderReport_snd_children r1 d
  have h2 := renderReport_snd_children r2 (renderReport r1 d).2
  refine ⟨?_, ?_, ?_⟩
  · intro el hel
    rw [h2, h1] at hel
    rw [renderReport_fst_eid r1 d]
    rcases List.mem_append.mp hel with hl | hr
    · have hl' := List.mem_filter.mp hl
      rcases List.mem_append.mp hl'.1 with ha | hb
      · have := hwf el (List.mem_filter.mp ha).1
        omega
      · exfalso
        have hb' : el = (renderReport r1 d).1 := List.mem_singleton.mp hb
        have := hl'.2
        rw [hb', renderReport_fst_isReport] at this
        simp at this
    · have hr' : el = (renderReport r2 (renderReport r1 d).2).1 :=
        List.mem_singleton.mp hr
      rw [hr', renderReport_fst_eid r2, renderReport_snd_nextId]
      omega
  · rw [h2]
    exact List.mem_append_right _ (List.mem_singleton.mpr rfl)
  · rw [h2]
    rw [List.countP_append]
    have hz : ((renderReport r1 d).2.children.filter
        (fun el => !isReportElement el)).countP isReportElement = 0 := by
      rw [List.countP_eq_zero]
      intro el hel
      have := (List.mem_filter.mp hel).2
      simp at this
      simp [this]
    rw [hz]
    simp [List.countP_cons, renderReport_fst_isReport]

/-- Witness for C1: the replacement property evaluated on a concrete empty
container rendered twice. -/
theorem renderReport_replaces_witness :
    ((renderReport (Except.error "e2")
        (renderReport (Except.error "e1") (Doc.mk [] 0)).2).2.children.countP
      isReportElement = 1) :=
  (renderReport_replaces (Except.error "e1") (Except.error "e2") (Doc.mk [] 0)
    (by intro el h; simp at h)).2.2

/-- C2: when reading the results object throws, renderReport does not
propagate the exception: it returns (and inserts into the container) a
rendered fallback element carrying the `lh-exception` class and not the
normal `lh-report` class. -/
theorem renderReport_exception (msg : String) (d : Doc) :
    (renderReport (Except.error msg) d).1.classes.contains "lh-exception" = true
    ∧ (renderReport (Except.error msg) d).1.classes.contains "lh-report" = false
    ∧ (renderReport (Except.error msg) d).1
        ∈ (renderReport (Except.error msg) d).2.children := by
  refine ⟨rfl, rfl, ?_⟩
  exact List.mem_append_right _ (List.mem_singleton.mpr rfl)

/-- C3: calculateRating is a total function from numeric scores to exactly
the three labels "fail", "average", "pass", bucketed by the fixed thresholds
45 and 75; in particular 0 and 10 rate "fail", 45 and 55 rate "average", and
75, 80 and 100 rate "pass". -/
theorem calculateRating_spec :
    (∀ s : ℚ, calculateRating s = "fail" ∨ calculateRating s = "average"
        ∨ calculateRating s = "pass")
    ∧ (∀ s : ℚ, calculateRating s = "pass" ↔ RATINGS_PASS_MIN ≤ s)
    ∧ (∀ s : ℚ, calculateRating s = "average"
        ↔ RATINGS_AVG_MIN ≤ s ∧ s < RATINGS_PASS_MIN)
    ∧ (∀ s : ℚ, calculateRating s = "fail" ↔ s < RATINGS_AVG_MIN)
    ∧ calculateRating 0 = "fail" ∧ calculateRating 10 = "fail"
    ∧ calculateRating 45 = "average" ∧ calculateRating 55 = "average"
    ∧ calculateRating 75 = "pass" ∧ calculateRating 80 = "pass"
    ∧ calculateRating 100 = "pass" := by
  refine ⟨?_, fun s => (calculateRating_iff s).1,
    fun s => (calculateRating_iff s).2.1, fun s => (calculateRating_iff s).2.2,
    ?_, ?_, ?_, ?_, ?_, ?_, ?_⟩
  · intro s
    unfold calculateRating
    split_ifs with h1 h2
    · exact Or.inr (Or.inr rfl)
    · exact Or.inr (Or.inl rfl)
    · exact Or.inl rfl
  · exact (calculateRating_iff 0).2.2.mpr (by norm_num [RATINGS_AVG_MIN])
  · exact (calculateRating_iff 10).2.2.mpr (by norm_num [RATINGS_AVG_MIN])
  · exact (calculateRating_iff 45).2.1.mpr
      (by norm_num [RATINGS_AVG_MIN, RATINGS_PASS_MIN])
  · exact (calculateRating_iff 55).2.1.mpr
      (by norm_num [RATINGS_AVG_MIN, RATINGS_PASS_MIN])
  · exact (calculateRating_iff 75).1.mpr (by norm_num [RATINGS_PASS_MIN])
  · exact (calculateRating_iff 80).1.mpr (by norm_num [RATINGS_PASS_MIN])
  · exact (calculateRating_iff 100).1.mpr (by norm_num [RATINGS_PASS_MIN])

/-- C4: formatNumber groups thousands and rounds to at most one fractional
digit: the three sample values from the unit tests hold, and on nonnegative
numbers the output depends only on the value rounded to tenths (so a number
and its tenths-rounding format identically). -/
theorem formatNumber_spec :
    formatNumber 10 = "10" ∧ formatNumber 100.01 = "100"
    ∧ formatNumber 13000.456 = "13,000.5"
    ∧ ∀ q : ℚ, 0 ≤ q → formatNumber q = formatNumber ((roundTenths q : ℚ) / 10) := by
  refine ⟨?_, ?_, ?_, ?_⟩
  · have h : roundTenths 10 = 100 := by
      rw [roundTenths, abs_of_nonneg (by norm_num), round_eq]
      norm_num
      rfl
    rw [formatNumber, h, if_neg (by norm_num)]
    rfl
  · have h : roundTenths 100.01 = 1000 := by
      rw [roundTenths, abs_of_nonneg (by norm_num), round_eq]
      norm_num
      rfl
    rw [formatNumber, h, if_neg (by norm_num)]
    rfl
  · have h : roundTenths 13000.456 = 130005 := by
      rw [roundTenths, abs_of_nonneg (by norm_num), round_eq]
      norm_num
      rfl
    rw [formatNumber, h, if_neg (by norm_num)]
    rfl
  · intro q hq
    have h10 : (0:ℚ) < 10 := by norm_num
    have hq' : (0:ℚ) ≤ (roundTenths q : ℚ) / 10 := by positivity
    have hrt : roundTenths ((roundTenths q : ℚ) / 10) = roundTenths q := by
      rw [roundTenths, abs_of_nonneg hq', div_mul_cancel₀ _ (ne_of_gt h10)]
      rw [round_natCast, Int.toNat_natCast]
    rw [formatNumber, formatNumber, hrt, if_neg (not_lt.mpr hq),
      if_neg (not_lt.mpr hq')]

/-- Witness for C4: the rounding-idempotence conjunct applied at the concrete
input 2. -/
theorem formatNumber_spec_witness :
    formatNumber 2 = formatNumber ((roundTenths 2 : ℚ) / 10) :=
  formatNumber_spec.2.2.2 2 (by norm_num)

/-- C7: rendering a successfully read results object (header, categories with
their audits, footer) leaves the results object unchanged: the object coming
out of the threaded rendering pipeline equals the input in every field, while
the rendered output agrees with renderReport. -/
theorem renderReport_readonly (r : Results) (d : Doc) :
    (renderReportThreaded r d).1 = r
    ∧ (renderReportThreaded r d).1.generatedTime = r.generatedTime
    ∧ (renderReportThreaded r d).1.url = r.url
    ∧ (renderReportThreaded r d).1.lighthouseVersion = r.lighthouseVersion
    ∧ (renderReportThreaded r d).1.runtimeConfig = r.runtimeConfig
    ∧ (renderReportThreaded r d).1.reportCategories = r.reportCategories
    ∧ (renderReportThreaded r d).2.1 = (renderReport (Except.ok r) d).1
    ∧ (renderReportThreaded r d).2.2 = (renderReport (Except.ok r) d).2 :=
  ⟨rfl, rfl, rfl, rfl, rfl, rfl, rfl, rfl⟩

/-! ## Feature-layer lemmas -/

theorem expandDetails_opens (els : List DetailsEl) :
    ∀ d ∈ expandDetailsWhenPrinting els, d.inCategories = true → d.isOpen = true := by
  intro d hd hc
  rcases List.mem_map.mp hd with ⟨d₀, hd₀, rfl⟩
  by_cases h : d₀.inCategories <;> simp [h] at hc ⊢

theorem expandDetails_mem_did (els : List DetailsEl) (captured : List ℕ)
    (h : ∀ d ∈ els, d.did ∈ captured) :
    ∀ d ∈ expandDetailsWhenPrinting els, d.did ∈ captured := by
  intro d hd
  rcases List.mem_map.mp hd with ⟨d₀, hd₀, rfl⟩
  by_cases hc : d₀.inCategories <;> simp [hc] <;> exact h d₀ hd₀

theorem collapseDetails_closes (captured : List ℕ) (els : List DetailsEl)
    (h : ∀ d ∈ els, d.did ∈ captured) :
    ∀ d ∈ collapseDetailsAfterPrinting captured els, d.isOpen = false := by
  intro d hd
  rcases List.mem_map.mp hd with ⟨d₀, hd₀, rfl⟩
  simp [h d₀ hd₀]

theorem step_export_print (env : Browser) (s : SysState)
    (hatt : s.features.attached = true)
    (hbtn : s.features.exportButtonPresent = true) :
    step env s (Ev.exportAction "print")
      = (({ s with
            detailsEls := expandDetailsWhenPrinting s.detailsEls
            features := { (closeExportDropdown s.features) with
              keyListenerAttached := false } }),
         [Effect.printDialog]) := by
  simp [step, hatt, hbtn, onExport]

theorem step_keyDown_p (env : Browser) (s : SysState)
    (hatt : s.features.attached = true) (ctrlKey metaKey : Bool)
    (hk : (ctrlKey || metaKey) = true) :
    step env s (Ev.keyDown ctrlKey metaKey 80)
      = (({ s with detailsEls := expandDetailsWhenPrinting s.detailsEls }), []) := by
  cases h : s.features.keyListenerAttached <;>
    simp [step, hatt, printShortCutDetect, hk, onKeyDown, h]

theorem step_afterPrint (env : Browser) (s : SysState)
    (hatt : s.features.attached = true) :
    step env s Ev.afterPrint
      = (({ s with detailsEls :=
          collapseDetailsAfterPrinting s.features.capturedDetails s.detailsEls }),
         []) := by
  simp [step, hatt]

theorem onCopyButtonClick_listener_flag (env : Browser) (st : FeaturesState)
    (hst : st.copyAttempt = false) :
    (onCopyButtonClick env true st).1.copyAttempt = false := by
  unfold onCopyButtonClick
  by_cases hs : env.copySupported = true
  · rcases hex : env.execCommandCopy with m | b
    · simp [hs, hex]
    · cases b <;> simp [hs, hex, onCopy]
  · simp [hs, hst]

theorem onExport_copyAttempt (env : Browser) (s : SysState) (a : String)
    (hl : (s.features.attached && s.features.exportButtonPresent) = true)
    (ih : s.features.copyAttempt = false) :
    (onExport env s a).1.features.copyAttempt = false := by
  unfold onExport
  rw [hl]
  split_ifs with h0 h1 h2 h3 h4 h5 <;>
    simp_all [closeExportDropdown, onCopyButtonClick_listener_flag env s.features ih]

theorem step_copyAttempt (env : Browser) (s : SysState) (e : Ev)
    (ih : s.features.copyAttempt = false) :
    (step env s e).1.features.copyAttempt = false := by
  cases e with
  | attachEv r => simpa [step, attach] using ih
  | exportButtonClick =>
      by_cases hc : (s.features.attached && s.features.exportButtonPresent) = true <;>
        simp [step, hc, onExportButtonClick, ih]
  | exportAction a =>
      by_cases hc : (s.features.attached && s.features.exportButtonPresent) = true
      · simpa [step, hc] using onExport_copyAttempt env s a hc ih
      · simp [step, hc, ih]
  | keyDown c m k =>
      by_cases hc : s.features.attached = true
      · by_cases hk : s.features.keyListenerAttached = true <;>
          simp [step, hc, hk, onKeyDown, closeExportDropdown, ih] <;>
          split_ifs <;> simp [ih]
      · simp [step, hc, ih]
  | copyEvent =>
      by_cases hc : (s.features.attached && s.features.exportButtonPresent) = true <;>
        simp [step, hc, onCopy, ih]
  | afterPrint =>
      by_cases hc : s.features.attached = true <;> simp [step, hc, ih]
  | viewerMessage o op =>
      by_cases hc : (s.features.viewerMsgPending && (o == VIEWER_ORIGIN) && op) = true <;>
        simp [step, hc, ih]

theorem copyAttempt_false_of_reachable (env : Browser) (els : List DetailsEl)
    (html : String) (btn : Bool) (s : SysState)
    (h : Reachable env (SysState.mk els html btn initFeatures) s) :
    s.features.copyAttempt = false := by
  induction h with
  | refl => rfl
  | tail s e hr ih => exact step_copyAttempt env s e ih

/-- A small concrete results object used by witnesses. -/
def sampleResults : Results :=
  Results.mk "t" "http://example.com" "1.6.0" (RuntimeConfig.mk []) []

/-- A concrete post-attach state used by witnesses: one category disclosure,
export button present, report stored, listeners bound. -/
def attachedState : SysState :=
  SysState.mk [DetailsEl.mk 0 true false] "<html>" true
    { initFeatures with
      json := some sampleResults
      attached := true
      exportButtonPresent := true
      capturedDetails := [0] }

/-! ## Claims about the feature layer -/

/-- C5: whenever printing is triggered through the export dropdown's print
action or through the Ctrl/Cmd+P shortcut, every details disclosure inside
the categories container is set open in the very handler step that shows the
print dialog (for the shortcut, before the browser opens the dialog), and
once the print dialog closes (the afterprint step) all of those disclosures
are set closed again.  The capture hypothesis states that the details present
were already present when `attach` captured them. -/
theorem print_expands_then_collapses (env : Browser) (s : SysState)
    (hatt : s.features.attached = true)
    (hbtn : s.features.exportButtonPresent = true)
    (hcap : ∀ d ∈ s.detailsEls, d.did ∈ s.features.capturedDetails) :
    (∀ d ∈ (step env s (Ev.exportAction "print")).1.detailsEls,
        d.inCategories = true → d.isOpen = true)
    ∧ (step env s (Ev.exportAction "print")).2 = [Effect.printDialog]
    ∧ (∀ d ∈ (step env s (Ev.keyDown true false 80)).1.detailsEls,
        d.inCategories = true → d.isOpen = true)
    ∧ (∀ d ∈ (step env s (Ev.keyDown false true 80)).1.detailsEls,
        d.inCategories = true → d.isOpen = true)
    ∧ (∀ d ∈ (step env (step env s (Ev.exportAction "print")).1
          Ev.afterPrint).1.detailsEls, d.isOpen = false)
    ∧ (∀ d ∈ (step env (step env s (Ev.keyDown true false 80)).1
          Ev.afterPrint).1.detailsEls, d.isOpen = false) := by
  have hp := step_export_print env s hatt hbtn
  have hk1 := step_keyDown_p env s hatt true false rfl
  have hk2 := step_keyDown_p env s hatt false true rfl
  refine ⟨?_, ?_, ?_, ?_, ?_, ?_⟩
  · rw [hp]; exact expandDetails_opens s.detailsEls
  · rw [hp]
  · rw [hk1]; exact expandDetails_opens s.detailsEls
  · rw [hk2]; exact expandDetails_opens s.detailsEls
  · have ha : (step env s (Ev.exportAction "print")).1.features.attached = true := by
      rw [hp]; simpa [closeExportDropdown] using hatt
    have hcap' : ∀ d ∈ (step env s (Ev.exportAction "print")).1.detailsEls,
        d.did ∈ (step env s (Ev.exportAction "print")).1.features.capturedDetails := by
      rw [hp]
      simpa [closeExportDropdown] using expandDetails_mem_did _ _ hcap
    rw [step_afterPrint env _ ha]
    exact collapseDetails_closes _ _ hcap'
  · have ha : (step env s (Ev.keyDown true false 80)).1.features.attached = true := by
      rw [hk1]; simpa using hatt
    have hcap' : ∀ d ∈ (step env s (Ev.keyDown true false 80)).1.detailsEls,
        d.did ∈ (step env s (Ev.keyDown true false 80)).1.features.capturedDetails := by
      rw [hk1]
      simpa using expandDetails_mem_did _ _ hcap
    rw [step_afterPrint env _ ha]
    exact collapseDetails_closes _ _ hcap'

/-- Witness for C5: the print action on a concrete freshly attached state
produces the print dialog. -/
theorem print_expands_witness :
    (step (Browser.mk true (Except.ok true) false)
      (step (Browser.mk true (Except.ok true) false)
        (SysState.mk [DetailsEl.mk 0 true false] "<html>" true initFeatures)
        (Ev.attachEv sampleResults)).1
      (Ev.exportAction "print")).2 = [Effect.printDialog] :=
  (print_expands_then_collapses (Browser.mk true (Except.ok true) false) _
    rfl rfl (by decide)).2.1

/-- C6: after attach the report JSON is stored and the listeners are bound,
and each export dropdown action dispatches by its data-action value: copy
writes the stored report JSON to the clipboard (in a browser where the copy
command is supported and succeeds), open-viewer opens the viewer and posts
the JSON once the viewer handshake arrives, print expands the category
details and opens the print dialog, save-json saves a file with the
JSON-serialized report, and save-html saves a file with the document's
HTML. -/
theorem attach_and_export_dispatch (env : Browser) (s : SysState) (r : Results)
    (hatt : s.features.attached = true)
    (hbtn : s.features.exportButtonPresent = true)
    (hjson : s.features.json = some r)
    (hsup : env.copySupported = true)
    (hexec : env.execCommandCopy = Except.ok true) :
    ((step env s (Ev.attachEv r)).1.features.json = some r
      ∧ (step env s (Ev.attachEv r)).1.features.attached = true
      ∧ (step env s (Ev.attachEv r)).1.features.exportButtonPresent
          = s.exportButtonInDoc
      ∧ (step env s (Ev.attachEv r)).1.features.capturedDetails
          = s.detailsEls.map DetailsEl.did)
    ∧ Effect.clipboardWrite (jsonStringify (some r))
        ∈ (step env s (Ev.exportAction "copy")).2
    ∧ (step env s (Ev.exportAction "open-viewer")).2
        = [Effect.openViewer VIEWER_URL]
    ∧ (step env (step env s (Ev.exportAction "open-viewer")).1
          (Ev.viewerMessage VIEWER_ORIGIN true)).2
        = [Effect.postMessageToViewer (jsonStringify (some r)) VIEWER_ORIGIN]
    ∧ (step env s (Ev.exportAction "print")).2 = [Effect.printDialog]
    ∧ (step env s (Ev.exportAction "print")).1.detailsEls
        = expandDetailsWhenPrinting s.detailsEls
    ∧ (step env s (Ev.exportAction "save-json")).2
        = [Effect.saveFile "application/json" (jsonStringify (some r))]
    ∧ (step env s (Ev.exportAction "save-html")).2
        = [Effect.saveFile "text/html" s.docHTML] := by
  have hl : (s.features.attached && s.features.exportButtonPresent) = true := by
    rw [hatt, hbtn]; rfl
  have hp := step_export_print env s hatt hbtn
  refine ⟨⟨?_, ?_, ?_, ?_⟩, ?_, ?_, ?_, ?_, ?_, ?_, ?_⟩
  · simp [step, attach, hjson]
  · simp [step, attach]
  · simp [step, attach]
  · simp [step, attach]
  · cases hga : env.gaPresent <;>
      simp [step, hl, onExport, onCopyButtonClick, hsup, hexec, onCopy, hjson, hga]
  · simp [step, hl, onExport]
  · simp [step, hl, onExport, closeExportDropdown, hjson]
  · rw [hp]
  · rw [hp]
  · simp [step, hl, onExport, hjson]
  · simp [step, hl, onExport]

/-- Witness for C6: the save-json action on a concrete attached state saves
the JSON-serialized report. -/
theorem attach_and_export_dispatch_witness :
    (step (Browser.mk true (Except.ok true) false) attachedState
        (Ev.exportAction "save-json")).2
      = [Effect.saveFile "application/json" (jsonStringify (some sampleResults))] :=
  (attach_and_export_dispatch (Browser.mk true (Except.ok true) false)
    attachedState sampleResults rfl rfl rfl rfl rfl).2.2.2.2.2.2.1

/-- C8: a document copy event writes the report JSON to the clipboard
exactly when the copy-attempt flag is pending (set by a copy-button click);
without a pending attempt the handler performs no effect at all, and in
every case it resets the flag, so a click intercepts at most one copy event;
moreover in every state reachable from a fresh instance the flag is false
between events (a click's successful interception happens within the click's
own dispatch), so a user-initiated copy event alone never writes. -/
theorem onCopy_spec (st : FeaturesState) :
    (st.copyAttempt = false → onCopy st = (({ st with copyAttempt := false }), []))
    ∧ (st.copyAttempt = true → (onCopy st).2
        = [Effect.clipboardWrite (jsonStringify st.json),
           Effect.logMsg "Report JSON copied to clipboard"])
    ∧ (onCopy st).1.copyAttempt = false
    ∧ (onCopy (onCopy st).1).2 = []
    ∧ (∀ env els html btn s',
        Reachable env (SysState.mk els html btn initFeatures) s' →
        s'.features.copyAttempt = false ∧ (step env s' Ev.copyEvent).2 = []) := by
  refine ⟨?_, ?_, rfl, ?_, ?_⟩
  · intro h; simp [onCopy, h]
  · intro h; simp [onCopy, h]
  · simp [onCopy]
  · intro env els html btn s' hr
    have hfl := copyAttempt_false_of_reachable env els html btn s' hr
    refine ⟨hfl, ?_⟩
    by_cases hc : (s'.features.attached && s'.features.exportButtonPresent) = true <;>
      simp [step, hc, onCopy, hfl]

/-- Witness for C8: a pending copy attempt makes the handler write the
stored JSON and log. -/
theorem onCopy_spec_witness :
    (onCopy ({ initFeatures with copyAttempt := true })).2
      = [Effect.clipboardWrite (jsonStringify none),
         Effect.logMsg "Report JSON copied to clipboard"] :=
  (onCopy_spec ({ initFeatures with copyAttempt := true })).2.1 rfl

/-- Counterexample for C9 as stated: when the copy command is unsupported
the handler performs no effect at all, so no message is logged, contrary to
the claim's parenthetical. -/
theorem onCopyButtonClick_unsupported_silent :
    onCopyButtonClick (Browser.mk false (Except.ok true) false) true initFeatures
      = (initFeatures, []) := rfl

/-- C9 (amended): if the copy command is unsupported (and no attempt was
pending), returns false, or throws during onCopyButtonClick, the
copy-attempt flag is false when the handler returns, so a failed
copy-button click never hijacks a later user-initiated copy; a message is
logged in the returns-false and throws cases (the unsupported case is
silent). -/
theorem onCopyButtonClick_failure_spec (env : Browser) (listener : Bool)
    (st : FeaturesState) (hst : st.copyAttempt = false)
    (hfail : env.copySupported = false ∨ env.execCommandCopy = Except.ok false
      ∨ ∃ m, env.execCommandCopy = Except.error m) :
    (onCopyButtonClick env listener st).1.copyAttempt = false
    ∧ (env.copySupported = true →
        ∃ m, Effect.logWarn m ∈ (onCopyButtonClick env listener st).2
          ∨ Effect.logMsg m ∈ (onCopyButtonClick env listener st).2) := by
  rcases hfail with h | h | ⟨m, h⟩
  · constructor
    · simp [onCopyButtonClick, h, hst]
    · intro hs; rw [hs] at h; cases h
  · constructor
    · by_cases hs : env.copySupported = true <;>
        simp [onCopyButtonClick, hs, h, hst]
    · intro hs
      refine ⟨"Your browser does not support copy to clipboard.", Or.inl ?_⟩
      simp [onCopyButtonClick, hs, h]
  · constructor
    · by_cases hs : env.copySupported = true <;>
        simp [onCopyButtonClick, hs, h, hst]
    · intro hs
      refine ⟨m, Or.inr ?_⟩
      simp [onCopyButtonClick, hs, h]

/-- Witness for C9 (amended): an execCommand returning false leaves no
pending copy attempt. -/
theorem onCopyButtonClick_failure_witness :
    (onCopyButtonClick (Browser.mk true (Except.ok false) false) true
      initFeatures).1.copyAttempt = false :=
  (onCopyButtonClick_failure_spec _ _ _ rfl (Or.inr (Or.inl rfl))).1

/-- C10: an export event whose target has no data-action value returns early
with no effect (the state, including the open dropdown and the bound ESC
listener, is unchanged and no effect is performed); every non-empty action,
known or not, ends with the dropdown closed and the ESC keydown listener
removed. -/
theorem onExport_empty_action_spec (env : Browser) (s : SysState)
    (hatt : s.features.attached = true)
    (hbtn : s.features.exportButtonPresent = true) :
    (step env s (Ev.exportAction "")).1 = s
    ∧ (step env s (Ev.exportAction "")).2 = []
    ∧ (∀ a : String, a ≠ "" →
        (step env s (Ev.exportAction a)).1.features.dropdownActive = false
        ∧ (step env s (Ev.exportAction a)).1.features.keyListenerAttached = false) := by
  have hl : (s.features.attached && s.features.exportButtonPresent) = true := by
    rw [hatt, hbtn]; rfl
  refine ⟨?_, ?_, ?_⟩
  · simp [step, hl, onExport]
  · simp [step, hl, onExport]
  · intro a ha
    have hstep : step env s (Ev.exportAction a) = onExport env s a := by
      simp [step, hl]
    rw [hstep]
    unfold onExport
    rw [if_neg ha]
    constructor <;> (split_ifs <;> simp [closeExportDropdown])

/-- Witness for C10: an unknown non-empty action on a concrete attached
state closes the dropdown. -/
theorem onExport_empty_action_witness :
    (step (Browser.mk true (Except.ok true) false) attachedState
        (Ev.exportAction "frobnicate")).1.features.dropdownActive = false :=
  ((onExport_empty_action_spec (Browser.mk true (Except.ok true) false)
    attachedState rfl rfl).2.2 "frobnicate" (by decide)).1

end Lighthouse
